import Mathlib

/-!
Verification development for the ReflexAI text-analytics backend.

The definitions below are a shallow embedding of the Python sources under
`backend/app`: the keyness analyzer (`keyness_analyzer.py`), the semantic
clusterer (`semantic_clustering.py`), the sentiment analyzer
(`sentiment_analyzer.py`), the statistics stage and orchestration of
`analysis_pipeline.py`, the insight adapter (`ollama_service.py`) and the
results cache of `analysis_router.py`.

Modelling conventions:
* Python floats become `ℚ` (the code only ever performs field arithmetic).
* External collaborators (sklearn vectorizer/PCA/KMeans, TextBlob, the
  Ollama client, wall-clock time) are parameters of the embedding; a Python
  call that may raise is modelled as `Except String _`.
* String scanning is performed on `List Char` with structural recursion so
  that every definition reduces inside the kernel.
* The regex context helpers of the keyness analyzer are embedded for
  newline-free text (the pipeline always hands them cleaned text, whose
  whitespace has been collapsed to single spaces), with the regex `x?`
  suffixes expanded into explicit alternatives.
-/

/-! ## Generic string helpers -/

/-- Splitting a character list at every separator character, keeping empty
pieces, mirroring Python `str.split(sep)` for a one-character separator. -/
def splitChars (p : Char → Bool) : List Char → List (List Char)
  | [] => [[]]
  | c :: cs =>
    if p c then [] :: splitChars p cs
    else
      match splitChars p cs with
      | [] => [[c]]
      | r :: rs => (c :: r) :: rs

/-- Splitting at every occurrence of a blank line separator, mirroring
Python `str.split` with separator chr(10) ++ chr(10). -/
def splitBlank : List Char → List (List Char)
  | [] => [[]]
  | '\n' :: '\n' :: cs => [] :: splitBlank cs
  | c :: cs =>
    match splitBlank cs with
    | [] => [[c]]
    | r :: rs => (c :: r) :: rs

/-- Python `str.strip`. -/
def trimL (l : List Char) : List Char :=
  ((l.dropWhile Char.isWhitespace).reverse.dropWhile Char.isWhitespace).reverse

/-- Python `str.split()` with no argument: split on whitespace runs and
drop empty pieces. -/
def pySplitWs (s : String) : List String :=
  ((splitChars Char.isWhitespace s.toList).filter (fun w => w ≠ [])).map
    (fun l => String.mk l)

/-- First-occurrence deduplication, the iteration order of a Python
`Counter`/`dict` built by insertion. -/
def dedupFirstAux (seen : List String) : List String → List String
  | [] => []
  | w :: ws =>
    if w ∈ seen then dedupFirstAux seen ws
    else w :: dedupFirstAux (w :: seen) ws

/-- Deduplication keeping the first occurrence of each word. -/
def dedupFirst (l : List String) : List String := dedupFirstAux [] l

/-! ## Keyness analyzer (`keyness_analyzer.py`) -/

/-- Characters matched by the regex class backslash-w (ASCII fragment). -/
def isWordChar (c : Char) : Bool := c.isAlphanum || c = '_'

/-- Tokenization of `calculate_keyness`: the matches of the regex
word-boundary-delimited `[a-zA-Z]+` on the lowercased text, i.e. the
maximal word-character runs that consist entirely of letters. -/
def tokenize (s : String) : List String :=
  ((splitChars (fun c => !isWordChar c) (s.toList.map Char.toLower)).filter
      (fun w => w ≠ [] && w.all Char.isAlpha)).map (fun l => String.mk l)

/-- The `positive_indicators` set of `KeynessAnalyzer.__init__`. -/
def positive_indicators : List String :=
  ["positive", "benefits", "advantages", "improve", "enhance", "better", "good", "great",
   "excellent", "effective", "efficient", "helpful", "useful", "valuable", "success",
   "successful", "opportunity", "opportunities", "innovation", "innovative", "creativity",
   "creative", "empowering", "accessibility", "accessible", "personalized", "personalised",
   "adaptive", "inclusive", "democratisation", "democratization", "quality", "modern",
   "cutting-edge", "prepare", "equipping", "stronger", "thrive", "thriving", "potential",
   "enable", "enables", "enabling", "breakthrough", "progress",
   "advancement", "solve", "solution", "solutions", "optimize", "optimized"]

/-- The `negative_indicators` set of `KeynessAnalyzer.__init__`. -/
def negative_indicators : List String :=
  ["negative", "drawbacks", "concerns", "concern", "problems", "problem", "issues", "issue",
   "risks", "risk", "dangers", "danger", "bad", "poor", "worse", "worst", "harmful",
   "damaging", "damage", "exploitation", "exploit", "discrimination", "discriminate",
   "privacy", "overuse", "dependent", "dependency", "undermine", "undermining", "bypass",
   "exclusion", "exclude", "divide", "inequality", "inequalities", "unequal", "bias",
   "biased", "dehumanising", "dehumanizing", "replace", "replacement", "threat", "threats",
   "fall", "behind", "underprivileged", "weakening", "weaken", "lose", "losing", "loss",
   "difficult", "difficulty", "struggle", "struggling", "fail", "failing", "failure",
   "blocked", "block", "unintentionally", "inappropriate", "misuse", "abuse"]

/-- The `stop_words` set local to `calculate_keyness`. -/
def keynessStopWords : List String :=
  ["the", "be", "to", "of", "and", "a", "in", "that", "have", "i", "it", "for",
   "not", "on", "with", "as", "you", "do", "at", "this", "but", "his", "by",
   "from", "they", "we", "say", "her", "she", "or", "an", "will", "my", "one",
   "all", "would", "there", "their", "what", "so", "up", "out", "if", "about",
   "who", "get", "which", "go", "me", "can", "had", "has", "is", "are", "was",
   "were", "been", "being", "than", "into", "through", "during", "before",
   "after", "above", "below", "between", "among", "such", "may", "might",
   "could", "should", "these", "those", "when", "where", "why", "how",
   "students", "student", "education", "learners", "learning", "teachers", "skills", "tools",
   "academic", "systems", "school", "schools", "university", "universities",
   "classroom", "classrooms", "technology", "technologies", "platform", "platforms",
   "system", "data", "information", "content", "use", "using", "used", "rather",
   "become", "becomes", "becoming", "work", "working", "workers", "time", "way",
   "ways", "help", "helps", "make", "makes", "making", "take", "takes", "taking",
   "knowledge", "experiences", "experience", "behaviour", "behavior", "side", "like",
   "while", "however", "down", "aidriven", "ai-driven", "problem-solving", "problemsolving"]

/-- The table returned by `KeynessAnalyzer._get_default_frequencies`. -/
def default_frequencies : List (String × ℚ) :=
  [("the", 7/100), ("be", 4/100), ("to", 4/100), ("of", 3/100), ("and", 3/100),
   ("a", 3/100), ("in", 2/100), ("that", 15/1000), ("have", 15/1000), ("i", 15/1000),
   ("it", 15/1000), ("for", 15/1000), ("not", 12/1000), ("on", 12/1000), ("with", 12/1000),
   ("as", 11/1000), ("you", 11/1000), ("do", 1/100), ("at", 1/100), ("this", 1/100),
   ("but", 9/1000), ("his", 9/1000), ("by", 9/1000), ("from", 8/1000), ("they", 8/1000),
   ("we", 8/1000), ("say", 8/1000), ("her", 8/1000), ("she", 8/1000), ("or", 8/1000),
   ("an", 7/1000), ("will", 7/1000), ("my", 7/1000), ("one", 7/1000), ("all", 7/1000),
   ("would", 6/1000), ("there", 6/1000), ("their", 6/1000), ("what", 6/1000),
   ("so", 6/1000), ("up", 6/1000), ("out", 6/1000), ("if", 6/1000), ("about", 6/1000),
   ("who", 5/1000), ("get", 5/1000), ("which", 5/1000), ("go", 5/1000), ("me", 5/1000)]

/-- Position indices 0..n of a character list, the candidate match starts
of an unanchored regex search. -/
def positionsUpTo (t : List Char) : List ℕ := List.range (t.length + 1)

/-- Character at index `i`, with a non-word, non-whitespace default for
out-of-range access. -/
def charAtD (t : List Char) (i : ℕ) : Char := t.getD i '#'

/-- Regex word boundary immediately before position `i` (used before a
pattern that starts with a letter). -/
def boundaryAt (t : List Char) (i : ℕ) : Bool :=
  i = 0 || !isWordChar (charAtD t (i - 1))

/-- Literal `w` matches at position `i`. -/
def occursAt (t w : List Char) (i : ℕ) : Bool := w.isPrefixOf (t.drop i)

/-- Regex fragment: one-or-more whitespace, then one of the literal
alternatives `alts`, continuing with `k` after the matched alternative.
Because every alternative starts with a letter, the greedy whitespace run
is exact. -/
def wsThen (t : List Char) (e : ℕ) (alts : List (List Char)) (k : ℕ → Bool) : Bool :=
  (charAtD t e).isWhitespace &&
    (let p := e + ((t.drop e).takeWhile Char.isWhitespace).length
     alts.any fun a => occursAt t a p && k (p + a.length))

/-- Regex fragment: one-or-more whitespace, anything, then `w` at a word
boundary (for newline-free text). -/
def wsDotStarBW (t w : List Char) (e : ℕ) : Bool :=
  (charAtD t e).isWhitespace &&
    ((positionsUpTo t).any fun j =>
      decide (e < j) && boundaryAt t j && occursAt t w j)

/-- Regex fragment: one-or-more whitespace, anything, then one of the
literal alternatives `alts` (for newline-free text). -/
def wsDotStarLit (t : List Char) (alts : List (List Char)) (e : ℕ) : Bool :=
  (charAtD t e).isWhitespace &&
    ((positionsUpTo t).any fun j =>
      decide (e < j) && alts.any fun a => occursAt t a j)

/-- Search for `w` at a word boundary anywhere, continuing with `k` after
the match. -/
def existsBW (t w : List Char) (k : ℕ → Bool) : Bool :=
  (positionsUpTo t).any fun i =>
    boundaryAt t i && occursAt t w i && k (i + w.length)

/-- Search for any of the literal alternatives anywhere (no boundary),
continuing with `k` after the match. -/
def existsLit (t : List Char) (alts : List (List Char)) (k : ℕ → Bool) : Bool :=
  (positionsUpTo t).any fun i =>
    alts.any fun a => occursAt t a i && k (i + a.length)

/-- The three positive-context regex searches of
`KeynessAnalyzer._is_positive_context`, matched case-insensitively. -/
def is_positive_context (w : String) (text : String) : Bool :=
  let t := text.toList.map Char.toLower
  let wc := w.toList.map Char.toLower
  existsBW t wc (wsThen t · [("help").toList, ("improve").toList,
      ("enhance").toList, ("enable").toList] (fun _ => true)) ||
  existsLit t [("benefits").toList, ("benefit").toList,
      ("advantages").toList, ("advantage").toList] (wsDotStarBW t wc) ||
  existsBW t wc (wsThen t · [("opportunitie").toList, ("solution").toList]
      (fun _ => true))

/-- The four negative-context regex searches of
`KeynessAnalyzer._is_negative_context`, matched case-insensitively. -/
def is_negative_context (w : String) (text : String) : Bool :=
  let t := text.toList.map Char.toLower
  let wc := w.toList.map Char.toLower
  existsLit t [("concerns").toList, ("concern").toList, ("risks").toList,
      ("risk").toList, ("problems").toList, ("problem").toList,
      ("issues").toList, ("issue").toList] (wsDotStarBW t wc) ||
  existsBW t wc (wsThen t · [("risk").toList, ("concern").toList,
      ("problem").toList] (fun _ => true)) ||
  existsLit t [("danger").toList, ("risk").toList] (wsDotStarBW t wc) ||
  existsBW t wc (fun e =>
    wsThen t e [("may").toList, ("could").toList, ("might").toList]
      (wsDotStarLit t [("harm").toList, ("damage").toList, ("undermine").toList]))

/-- One entry of the dictionary list built by `calculate_keyness`. -/
structure KeyEntry where
  word : String
  score : ℚ
  raw_score : ℚ
  effect_size : ℚ
  frequency : ℕ
  sentiment : String
  confidence : ℚ
deriving DecidableEq

/-- Construction of one keyness entry for a classified word (the
`keyness_scores.append` call of `calculate_keyness`). -/
def mkEntry (total : ℕ) (w : String) (freq : ℕ) (pos : Bool) : KeyEntry :=
  let rel : ℚ := (freq : ℚ) / (total : ℚ)
  let eff : ℚ := if pos then rel * freq * 15 else -(rel * freq * 15)
  { word := w, score := |eff|, raw_score := eff, effect_size := eff,
    frequency := freq,
    sentiment := if pos then "positive" else "negative",
    confidence := min (19/20) (rel * 20) }

/-- Sentiment classification step of the `calculate_keyness` loop:
positive indicators (or positive context) first, then negative, otherwise
the word is skipped. -/
def classifyWord (w : String) (text : String) : Option Bool :=
  if w ∈ positive_indicators ∨ is_positive_context w text then some true
  else if w ∈ negative_indicators ∨ is_negative_context w text then some false
  else none

/-- The `keyness_scores` list of `calculate_keyness`: one entry per
distinct word with frequency at least 2, length at least 3, not a stop
word, and a positive or negative classification. -/
def keynessScores (text : String) : List KeyEntry :=
  let tokens := tokenize text
  let total := tokens.length
  (dedupFirst tokens).filterMap fun w =>
    let freq := tokens.count w
    if freq < 2 ∨ w.length < 3 ∨ w ∈ keynessStopWords then none
    else
      match classifyWord w text with
      | some pos => some (mkEntry total w freq pos)
      | none => none

/-- Descending comparison on the stored score, the key of both
`sorted(..., key=lambda x: x['score'], reverse=True)` calls. -/
def byScoreDesc (a b : KeyEntry) : Prop := b.score ≤ a.score

instance : DecidableRel byScoreDesc := fun a b =>
  inferInstanceAs (Decidable (b.score ≤ a.score))

instance : IsTotal KeyEntry byScoreDesc := ⟨fun a b => le_total b.score a.score⟩

instance : IsTrans KeyEntry byScoreDesc :=
  ⟨fun _ _ _ h h' => le_trans h' h⟩

/-- `KeynessAnalyzer.calculate_keyness`: tokenize, score the classified
words, sort by score descending, cap the positive and negative subsets at
12 each, merge, re-sort and truncate to 20. The `reference_freq`
parameter is accepted but never read by the implementation. -/
def calculate_keyness (text : String) (reference_freq : Option (List (String × ℚ))) :
    List KeyEntry :=
  let tokens := tokenize text
  if tokens.length = 0 then []
  else
    let sorted_scores := (keynessScores text).insertionSort byScoreDesc
    let positive_scores := (sorted_scores.filter (fun s => 0 < s.effect_size)).take 12
    let negative_scores := (sorted_scores.filter (fun s => s.effect_size < 0)).take 12
    let final_scores := positive_scores ++ negative_scores
    (final_scores.insertionSort byScoreDesc).take 20

/-- One keyword of the pipeline result (`models/analysis.py`,
`KeywordItem`). -/
structure KeywordItem where
  word : String
  score : ℚ
  frequency : ℕ
  rank : ℕ
  effect_size : ℚ
  confidence : ℚ
deriving DecidableEq

/-- The keyword enhancement loop of `AnalysisPipeline.analyze`
(`for i, keyword in enumerate(keyness_data)`), carrying the running
index; the rank is the 1-based position. -/
def enhanceFrom (n : ℕ) : List KeyEntry → List KeywordItem
  | [] => []
  | k :: ks =>
    { word := k.word, score := k.score, frequency := k.frequency,
      rank := n + 1, effect_size := k.effect_size,
      confidence := k.confidence } :: enhanceFrom (n + 1) ks

/-- The enhanced keyword list built by the pipeline from the keyness
stage output. -/
def enhanceKeywords (l : List KeyEntry) : List KeywordItem := enhanceFrom 0 l

/-! ## Semantic clusterer (`semantic_clustering.py`) -/

/-- One cluster dictionary returned by `SemanticClusterer.create_clusters`
or `_fallback_clusters`. -/
structure RawCluster where
  id : ℕ
  label : String
  words : List String
  size : ℕ
deriving DecidableEq

/-- `SemanticClusterer._split_sentences`: split on sentence terminators,
strip, and keep pieces longer than 20 characters. -/
def split_sentences (text : String) : List String :=
  ((splitChars (fun c => c = '.' || c = '!' || c = '?') text.toList).map
      (fun l => String.mk (trimL l))).filter (fun s => 20 < s.length)

/-- Descending comparison on the second component, the key of the sort in
`_extract_keywords`. -/
def byCountDesc (a b : String × ℕ) : Prop := b.2 ≤ a.2

instance : DecidableRel byCountDesc := fun a b =>
  inferInstanceAs (Decidable (b.2 ≤ a.2))

instance : IsTotal (String × ℕ) byCountDesc := ⟨fun a b => Nat.le_total b.2 a.2⟩

instance : IsTrans (String × ℕ) byCountDesc := ⟨fun _ _ _ h h' => Nat.le_trans h' h⟩

/-- `SemanticClusterer._extract_keywords`: count, over the joined
lowercased cluster text, the occurrences of words that appear among the
vectorizer's feature names, and return them sorted by count descending. -/
def extract_keywords (sentences : List String) (feature_names : List String) :
    List String :=
  let words := pySplitWs (String.intercalate " " sentences).toLower
  let wf := words.filter (fun w => decide (w ∈ feature_names))
  let items := (dedupFirst wf).map (fun w => (w, wf.count w))
  (items.insertionSort byCountDesc).map (fun p => p.1)

/-- `SemanticClusterer._generate_label`. -/
def generate_label (words : List String) : String :=
  match words with
  | [] => "General"
  | w :: _ => w.capitalize ++ " Theme"

/-- `SemanticClusterer._fallback_clusters`: the first 30 distinct words of
the lowercased text, partitioned into five buckets of six. -/
def fallback_clusters (text : String) : List RawCluster :=
  let words := pySplitWs text.toLower
  let unique_words := (dedupFirst words).take 30
  (List.range 5).map fun i =>
    { id := i, label := "Group " ++ toString (i + 1),
      words := (unique_words.drop (i * 6)).take 6,
      size := ((unique_words.drop (i * 6)).take 6).length }

/-- The external scikit-learn collaborators of the clusterer: the TF-IDF
vectorizer (returning its feature names, with one row per sentence) and
the PCA-plus-KMeans chain (returning one cluster label per sentence).
Either call may raise. -/
structure SkEnv where
  vectorize : List String → Except String (List String)
  kmeans : List String → ℕ → Except String (List ℕ)

/-- The first clamp of `create_clusters`: when there are fewer sentences
than requested clusters, use `max 2 (sentences / 2)`. -/
def clampedN (len n : ℕ) : ℕ := if len < n then max 2 (len / 2) else n

/-- The second clamp of `create_clusters`: the cluster count never exceeds
the number of matrix rows, which equals the number of sentences. -/
def clampedN2 (len n : ℕ) : ℕ :=
  let n1 := clampedN len n
  if len < n1 then len else n1

/-- The loop body of `create_clusters`: the group built for cluster index
`i` from the sentences whose KMeans label equals `i`. -/
def buildCluster (sentences : List String) (labels : List ℕ)
    (feature_names : List String) (i : ℕ) : RawCluster :=
  let cluster_sentences :=
    ((sentences.zip labels).filter (fun p => p.2 = i)).map (fun p => p.1)
  let cluster_words := extract_keywords cluster_sentences feature_names
  { id := i, label := generate_label cluster_words,
    words := cluster_words.take 10, size := cluster_sentences.length }

/-- `SemanticClusterer.create_clusters`: clamp the cluster count, run the
vectorizer and clustering chain, and build one labelled group per cluster
index; if either external call raises, fall back to `_fallback_clusters`. -/
def create_clusters (env : SkEnv) (text : String) (n_clusters : ℕ) : List RawCluster :=
  let sentences := split_sentences text
  match env.vectorize sentences with
  | Except.error _ => fallback_clusters text
  | Except.ok feature_names =>
    let n2 := clampedN2 sentences.length n_clusters
    match env.kmeans sentences n2 with
    | Except.error _ => fallback_clusters text
    | Except.ok labels =>
      (List.range n2).map (buildCluster sentences labels feature_names)

/-! ## Sentiment analyzer (`sentiment_analyzer.py`) -/

/-- What the external TextBlob library provides for a text: the
document-level polarity and the polarity of each detected sentence. -/
structure TextBlobData where
  overall : ℚ
  sentencePolarities : List ℚ

/-- The dictionary returned by `SentimentAnalyzer.analyze_sentiment`. -/
structure SentimentData where
  overall : ℚ
  positive : ℚ
  negative : ℚ
  neutral : ℚ
deriving DecidableEq

/-- The sentence-classification loop of `analyze_sentiment`, carried as a
(positive, negative, neutral) counter triple. -/
def sentimentCounts (ps : List ℚ) : ℕ × ℕ × ℕ :=
  ps.foldl
    (fun acc p =>
      if (1 : ℚ)/10 < p then (acc.1 + 1, acc.2.1, acc.2.2)
      else if p < -(1/10) then (acc.1, acc.2.1 + 1, acc.2.2)
      else (acc.1, acc.2.1, acc.2.2 + 1))
    (0, 0, 0)

/-- `SentimentAnalyzer.analyze_sentiment`, parameterized by the TextBlob
collaborator. -/
def analyze_sentiment (textblob : String → TextBlobData) (text : String) :
    SentimentData :=
  let blob := textblob text
  let counts := sentimentCounts blob.sentencePolarities
  let total : ℕ :=
    if blob.sentencePolarities.isEmpty then 1 else blob.sentencePolarities.length
  { overall := blob.overall,
    positive := (counts.1 : ℚ) / (total : ℚ) * 100,
    negative := (counts.2.1 : ℚ) / (total : ℚ) * 100,
    neutral := (counts.2.2 : ℚ) / (total : ℚ) * 100 }

/-! ## Text statistics (`AnalysisPipeline._calculate_text_statistics`) -/

/-- The `TextStatistics` payload of `models/analysis.py`. -/
structure TextStatistics where
  character_count : ℕ
  word_count : ℕ
  sentence_count : ℕ
  paragraph_count : ℕ
  avg_sentence_length : ℚ
  avg_word_length : ℚ
  unique_words : ℕ
  vocabulary_richness : ℚ
  readability_score : ℚ
deriving DecidableEq

/-- The inner `count_syllables` helper: lowercase, strip one trailing
silent e, count vowel-group starts, floor at 1. -/
def count_syllables (word : String) : ℕ :=
  let w := word.toList.map Char.toLower
  let w := if w.getLast? = some 'e' then w.dropLast else w
  let vowels : List Char := ['a', 'e', 'i', 'o', 'u', 'y']
  let f := w.foldl
    (fun (st : ℕ × Bool) c =>
      if c ∈ vowels then (if st.2 then st else (st.1 + 1, true))
      else (st.1, false))
    (0, false)
  max 1 f.1

/-- `AnalysisPipeline._calculate_text_statistics`. -/
def calculate_text_statistics (original_text cleaned_text : String) : TextStatistics :=
  let char_count := original_text.length
  let words := pySplitWs cleaned_text
  let word_count := words.length
  let sentences :=
    ((splitChars (fun c => c = '.') original_text.toList).map
        (fun l => String.mk (trimL l))).filter (fun s => s ≠ "")
  let sentence_count := sentences.length
  let paragraphs :=
    ((splitBlank original_text.toList).map (fun l => String.mk (trimL l))).filter
      (fun s => s ≠ "")
  let paragraph_count := max paragraphs.length 1
  let unique_words := (dedupFirst (words.map String.toLower)).length
  let avg_sentence_length : ℚ := (word_count : ℚ) / (max sentence_count 1 : ℕ)
  let avg_word_length : ℚ :=
    ((words.map String.length).sum : ℚ) / (max word_count 1 : ℕ)
  let vocabulary_richness : ℚ := (unique_words : ℚ) / (max word_count 1 : ℕ)
  let readability_score : ℚ :=
    if 0 < sentence_count ∧ 0 < word_count then
      let total_syllables := (words.map count_syllables).sum
      let avg_syllables_per_word : ℚ := (total_syllables : ℚ) / (word_count : ℕ)
      max 0 (min 100
        (206835/1000 - (1015/1000) * avg_sentence_length
          - (846/10) * avg_syllables_per_word))
    else 0
  { character_count := char_count, word_count := word_count,
    sentence_count := sentence_count, paragraph_count := paragraph_count,
    avg_sentence_length := avg_sentence_length, avg_word_length := avg_word_length,
    unique_words := unique_words, vocabulary_richness := vocabulary_richness,
    readability_score := readability_score }

/-! ## Insight adapter (`ollama_service.py`) -/

/-- The insight dictionary returned by `OllamaService.analyze_themes`. -/
structure AIInsights where
  ai_insights : String
  model : String
deriving DecidableEq

/-- The prompt assembled inside `OllamaService.analyze_themes`. -/
def buildPrompt (text : String) (clusters : List RawCluster) : String :=
  let cluster_summary := String.intercalate "\n"
    ((clusters.take 5).map fun c =>
      "- " ++ c.label ++ ": " ++ String.intercalate ", " (c.words.take 5))
  "As a literary analyst, examine this creative writing excerpt and identify key themes and stylistic patterns.\n\nText excerpt (first 500 characters):\n\"" ++
    String.mk (text.toList.take 500) ++
    "...\"\n\nIdentified word clusters:\n" ++ cluster_summary ++
    "\n\nProvide a brief analysis (3-4 sentences) focusing on:\n1. Main thematic elements\n2. Writing style characteristics\n3. Emotional tone\n\nKeep the response concise and insightful."

/-- `OllamaService.analyze_themes`: absent client yields no insight; the
external generate call is wrapped in a catch-all that yields no insight on
any error. -/
def analyze_themes (client : Option Unit) (generate : String → Except String String)
    (model : String) (text : String) (clusters : List RawCluster) : Option AIInsights :=
  match client with
  | none => none
  | some _ =>
    match generate (buildPrompt text clusters) with
    | Except.error _ => none
    | Except.ok resp => some { ai_insights := resp, model := model }

/-! ## Pipeline data model (`models/analysis.py`) -/

/-- `AnalysisStatus`. -/
inductive AnalysisStatus where
  | pending
  | processing
  | completed
  | failed
deriving DecidableEq

/-- `ProcessingMetadata`. -/
structure ProcessingMetadata where
  start_time : String
  end_time : String
  processing_time_seconds : ℚ
  file_size_bytes : Option ℕ
  model_versions : Option (List (String × String))
  parameters : List (String × String)
deriving DecidableEq

/-- `KeynessResult`. -/
structure KeynessResult where
  keywords : List KeywordItem
  total_keywords : ℕ
  processing_time_ms : ℚ
  reference_corpus : String
deriving DecidableEq

/-- `WordCoordinate`. -/
structure WordCoordinate where
  word : String
  x : ℚ
  y : ℚ
  cluster_id : ℕ
deriving DecidableEq

/-- `SemanticCluster` as enriched by the pipeline. -/
structure SemanticCluster where
  id : ℕ
  label : String
  words : List String
  size : ℕ
  centroid : Option (List ℚ)
  coherence_score : ℚ
  word_coordinates : List WordCoordinate
deriving DecidableEq

/-- `SemanticClusteringResult`. -/
structure SemanticClusteringResult where
  clusters : List SemanticCluster
  total_clusters : ℕ
  processing_time_ms : ℚ
  algorithm : String
  similarity_threshold : ℚ
deriving DecidableEq

/-- `SentimentResult` as populated by the pipeline. -/
structure SentimentResult where
  overall : ℚ
  positive : ℚ
  negative : ℚ
  neutral : ℚ
  compound : ℚ
  confidence : ℚ
  sentence_sentiments : List (String × ℚ)
deriving DecidableEq

/-- `AnalysisResult`. -/
structure AnalysisResult where
  id : String
  timestamp : String
  status : AnalysisStatus
  keyness : Option KeynessResult
  semanticClusters : Option (List SemanticCluster)
  semanticClustering : Option SemanticClusteringResult
  sentiment : Option SentimentResult
  textStatistics : Option TextStatistics
  aiInsights : Option AIInsights
  metadata : Option ProcessingMetadata
  error_message : Option String
deriving DecidableEq

/-! ## Pipeline orchestrator (`AnalysisPipeline.analyze`) -/

/-- `AnalysisPipeline._generate_word_coordinates`: at most the first 20
words of a cluster, placed on a unit circle. The angle fraction
`i / len(words)` (times two, in half-turns) is handed to the external
trigonometric functions `cosF`/`sinF`. -/
def generate_word_coordinates (cosF sinF : ℚ → ℚ) (words : List String)
    (cluster_id : ℕ) : List WordCoordinate :=
  ((words.take 20).enum).map fun p =>
    { word := p.2,
      x := cosF (((p.1 : ℚ) / (words.length : ℚ)) * 2),
      y := sinF (((p.1 : ℚ) / (words.length : ℚ)) * 2),
      cluster_id := cluster_id }

/-- The collaborators and ambient effects of one `analyze` run: the two
timestamps and timing figures read from the clock, the five hard stages
(each may raise), the soft insight stage with its client availability,
the trig functions used for display coordinates and the version strings
recorded in the metadata. -/
structure PipelineEnv where
  startTimestamp : String
  endTimestamp : String
  elapsed : ℚ
  keynessMs : ℚ
  clusteringMs : ℚ
  sentimentMs : ℚ
  clean_text : String → Except String String
  statsStage : String → String → Except String TextStatistics
  keynessStage : String → Except String (List KeyEntry)
  clusteringStage : String → Except String (List RawCluster)
  sentimentStage : String → Except String SentimentData
  ollamaClient : Bool
  insightStage : String → List RawCluster → Except String (Option AIInsights)
  cosF : ℚ → ℚ
  sinF : ℚ → ℚ
  spacyVersion : String
  ollamaModel : String

/-- The freshly initialized result object of `analyze`. -/
def initResult (env : PipelineEnv) (analysis_id : String) : AnalysisResult :=
  { id := analysis_id, timestamp := env.startTimestamp,
    status := AnalysisStatus.processing, keyness := none,
    semanticClusters := none, semanticClustering := none, sentiment := none,
    textStatistics := none, aiInsights := none, metadata := none,
    error_message := none }

/-- The metadata written by the catch-all failure handler of `analyze`. -/
def failMeta (env : PipelineEnv) (parameters : Option (List (String × String))) :
    ProcessingMetadata :=
  { start_time := env.startTimestamp, end_time := env.endTimestamp,
    processing_time_seconds := env.elapsed, file_size_bytes := none,
    model_versions := none, parameters := parameters.getD [] }

/-- The catch-all `except` branch of `analyze`: mark the result FAILED,
record the message and the timing metadata, keeping whatever stage
payloads were already written. -/
def failWith (r : AnalysisResult) (env : PipelineEnv)
    (parameters : Option (List (String × String))) (e : String) : AnalysisResult :=
  { r with
    status := AnalysisStatus.failed
    error_message := some e
    metadata := some (failMeta env parameters) }

/-- The keyness payload assembled by the pipeline. -/
def mkKeynessResult (env : PipelineEnv) (kd : List KeyEntry) : KeynessResult :=
  { keywords := enhanceKeywords kd,
    total_keywords := (enhanceKeywords kd).length,
    processing_time_ms := env.keynessMs,
    reference_corpus := "general_english" }

/-- The enhanced cluster assembled by the pipeline from one raw cluster:
display coordinates added, coherence defaulted to 0.8. -/
def enhanceCluster (env : PipelineEnv) (c : RawCluster) : SemanticCluster :=
  { id := c.id, label := c.label, words := c.words, size := c.size,
    centroid := none, coherence_score := (4 : ℚ)/5,
    word_coordinates := generate_word_coordinates env.cosF env.sinF c.words c.id }

/-- The clustering payload assembled by the pipeline. -/
def mkClusteringResult (env : PipelineEnv) (cd : List RawCluster) :
    SemanticClusteringResult :=
  { clusters := cd.map (enhanceCluster env),
    total_clusters := (cd.map (enhanceCluster env)).length,
    processing_time_ms := env.clusteringMs,
    algorithm := "kmeans_embedding",
    similarity_threshold := (7 : ℚ)/10 }

/-- The sentiment payload assembled by the pipeline: compound defaults to
the overall polarity, confidence to 0.85, sentence breakdown to empty. -/
def mkSentimentResult (sd : SentimentData) : SentimentResult :=
  { overall := sd.overall, positive := sd.positive, negative := sd.negative,
    neutral := sd.neutral, compound := sd.overall,
    confidence := (17 : ℚ)/20, sentence_sentiments := [] }

/-- `AnalysisPipeline.analyze`: run the hard stages in order, appending
each payload to the result; any hard-stage exception is captured by
`failWith`; the soft insight stage is isolated and can only leave
`aiInsights` absent; on success stamp metadata and COMPLETED. -/
def analyze (env : PipelineEnv) (text analysis_id : String)
    (parameters : Option (List (String × String))) : AnalysisResult :=
  let result := initResult env analysis_id
  match env.clean_text text with
  | Except.error e => failWith result env parameters e
  | Except.ok cleaned_text =>
    match env.statsStage text cleaned_text with
    | Except.error e => failWith result env parameters e
    | Except.ok text_stats =>
      let result := { result with textStatistics := some text_stats }
      match env.keynessStage cleaned_text with
      | Except.error e => failWith result env parameters e
      | Except.ok keyness_data =>
        let result := { result with
          keyness := some (mkKeynessResult env keyness_data) }
        match env.clusteringStage cleaned_text with
        | Except.error e => failWith result env parameters e
        | Except.ok clusters_data =>
          let result := { result with
            semanticClustering := some (mkClusteringResult env clusters_data)
            semanticClusters := some (clusters_data.map (enhanceCluster env)) }
          match env.sentimentStage cleaned_text with
          | Except.error e => failWith result env parameters e
          | Except.ok sentiment_data =>
            let result := { result with
              sentiment := some (mkSentimentResult sentiment_data) }
            let ai_insights : Option AIInsights :=
              if env.ollamaClient then
                match env.insightStage cleaned_text clusters_data with
                | Except.ok (some ins) => some ins
                | Except.ok none => none
                | Except.error _ => none
              else none
            let result := { result with aiInsights := ai_insights }
            let model_versions :=
              ("spacy", env.spacyVersion) ::
                (match ai_insights with
                 | some _ => [("ollama", env.ollamaModel)]
                 | none => [])
            { result with
              metadata := some
                { start_time := env.startTimestamp,
                  end_time := env.endTimestamp,
                  processing_time_seconds := env.elapsed,
                  file_size_bytes := some text.utf8ByteSize,
                  model_versions := some model_versions,
                  parameters := parameters.getD [] }
              status := AnalysisStatus.completed }

/-! ## Results cache (`analysis_router.py`) -/

/-- The module-level `analysis_cache` dictionary. -/
abbrev Store := List (String × AnalysisResult)

/-- `get_results`: return the cached result (absent models the 404); the
cache is left untouched. -/
def get_results (cache : Store) (analysis_id : String) :
    Option AnalysisResult × Store :=
  match List.lookup analysis_id cache with
  | none => (none, cache)
  | some r => (some r, cache)

/-- `download_results`: return the cached result and delete the key
(absent models the 404). -/
def download_results (cache : Store) (analysis_id : String) :
    Option AnalysisResult × Store :=
  match List.lookup analysis_id cache with
  | none => (none, cache)
  | some r =>
    (some r, List.filter (fun kv => kv.1 ≠ analysis_id) cache)

/-! ## Helper lemmas -/

theorem dedupFirstAux_subset {seen : List String} {l : List String} {w : String}
    (h : w ∈ dedupFirstAux seen l) : w ∈ l := by
  induction l generalizing seen with
  | nil => simpa [dedupFirstAux] using h
  | cons x xs ih =>
    rw [dedupFirstAux] at h
    split at h
    · exact List.mem_cons_of_mem x (ih h)
    · rcases List.mem_cons.mp h with h' | h'
      · exact h' ▸ List.mem_cons_self x xs
      · exact List.mem_cons_of_mem x (ih h')

theorem mem_dedupFirst {l : List String} {w : String} (h : w ∈ dedupFirst l) :
    w ∈ l := dedupFirstAux_subset h

theorem enhanceFrom_length (n : ℕ) (l : List KeyEntry) :
    (enhanceFrom n l).length = l.length := by
  induction l generalizing n with
  | nil => rfl
  | cons k ks ih => simp [enhanceFrom, ih]

theorem enhanceFrom_map_rank (n : ℕ) (l : List KeyEntry) :
    (enhanceFrom n l).map (fun e => e.rank) = List.range' (n + 1) l.length := by
  induction l generalizing n with
  | nil => rfl
  | cons k ks ih => simp [enhanceFrom, List.range'_succ, ih]

theorem mem_enhanceFrom {n : ℕ} {l : List KeyEntry} {e : KeywordItem}
    (h : e ∈ enhanceFrom n l) :
    ∃ k ∈ l, e.word = k.word ∧ e.score = k.score ∧ e.frequency = k.frequency ∧
      e.effect_size = k.effect_size ∧ e.confidence = k.confidence := by
  induction l generalizing n with
  | nil => simp [enhanceFrom] at h
  | cons k ks ih =>
    rw [enhanceFrom] at h
    rcases List.mem_cons.mp h with h' | h'
    · exact ⟨k, List.mem_cons_self k ks, by simp [h']⟩
    · obtain ⟨k', hk', hf⟩ := ih h'
      exact ⟨k', List.mem_cons_of_mem k hk', hf⟩

theorem enhanceFrom_pairwise {l : List KeyEntry} {n : ℕ}
    (h : l.Pairwise (fun a b => b.score ≤ a.score)) :
    (enhanceFrom n l).Pairwise (fun a b => b.score ≤ a.score) := by
  induction l generalizing n with
  | nil => exact List.Pairwise.nil
  | cons k ks ih =>
    rcases List.pairwise_cons.mp h with ⟨hk, hks⟩
    rw [enhanceFrom]
    refine List.pairwise_cons.mpr ⟨?_, ih hks⟩
    intro e he
    obtain ⟨k', hk', _, hs, _⟩ := mem_enhanceFrom he
    simpa [hs] using hk k' hk'

theorem enhanceFrom_filter_length (n : ℕ) (l : List KeyEntry) (p : ℚ → Prop)
    [DecidablePred p] :
    ((enhanceFrom n l).filter (fun e => decide (p e.effect_size))).length =
      (l.filter (fun e => decide (p e.effect_size))).length := by
  induction l generalizing n with
  | nil => rfl
  | cons k ks ih =>
    rw [enhanceFrom]
    by_cases hp : p k.effect_size <;> simp [List.filter_cons, hp, ih]

/-- Invariant satisfied by every entry produced by the scoring loop of
`calculate_keyness`. -/
def EntryInv (text : String) (e : KeyEntry) : Prop :=
  2 ≤ e.frequency ∧
  e.frequency = (tokenize text).count e.word ∧
  e.score = |e.effect_size| ∧
  e.raw_score = e.effect_size ∧
  e.score = ((e.frequency : ℚ))^2 * 15 / (((tokenize text).length : ℕ) : ℚ) ∧
  e.confidence = min (19/20)
    ((e.frequency : ℚ) * 20 / (((tokenize text).length : ℕ) : ℚ)) ∧
  0 ≤ e.confidence ∧ e.confidence ≤ 19/20 ∧
  e.effect_size ≠ 0

theorem keynessScores_entry {text : String} {e : KeyEntry}
    (h : e ∈ keynessScores text) : EntryInv text e := by
  simp only [keynessScores] at h
  obtain ⟨w, hw, heq⟩ := List.mem_filterMap.mp h
  by_cases hcond : (tokenize text).count w < 2 ∨ w.length < 3 ∨ w ∈ keynessStopWords
  · rw [if_pos hcond] at heq
    exact Option.noConfusion heq
  · simp only [if_neg hcond] at heq
    push_neg at hcond
    obtain ⟨hfreq, -, -⟩ := hcond
    have htot : (tokenize text).count w ≤ (tokenize text).length :=
      List.count_le_length w (tokenize text)
    rcases hc : classifyWord w text with - | pos
    · rw [hc] at heq; cases heq
    · rw [hc] at heq
      injection heq with heq
      subst heq
      have hq : (0 : ℚ) < ((tokenize text).count w : ℚ) := by
        exact_mod_cast lt_of_lt_of_le (by norm_num) hfreq
      have hT : (0 : ℚ) < (((tokenize text).length : ℕ) : ℚ) := by
        exact_mod_cast lt_of_lt_of_le (lt_of_lt_of_le (by norm_num) hfreq) htot
      set q : ℚ := ((tokenize text).count w : ℚ) with hqdef
      set T : ℚ := (((tokenize text).length : ℕ) : ℚ) with hTdef
      have hpos : (0 : ℚ) < q / T * (q * 15) := by positivity
      have harith : q / T * ((tokenize text).count w : ℚ) * 15 = q^2 * 15 / T := by
        rw [← hqdef]; field_simp; ring
      constructor
      · exact hfreq
      constructor
      · rfl
      constructor
      · simp [mkEntry]
      constructor
      · simp [mkEntry]
      constructor
      · rcases pos with - | -
        · simp only [mkEntry, if_neg (by simp : ¬ (false = true))]
          rw [abs_neg, abs_of_pos (by rw [mul_assoc]; exact hpos)]
          exact harith
        · simp only [mkEntry, if_pos rfl]
          rw [abs_of_pos (by rw [mul_assoc]; exact hpos)]
          exact harith
      constructor
      · simp only [mkEntry]
        rw [div_mul_eq_mul_div]
      constructor
      · simp only [mkEntry]
        refine le_min (by norm_num) ?_
        positivity
      constructor
      · simp only [mkEntry]
        exact min_le_left _ _
      · rcases pos with - | -
        · simp only [mkEntry, if_neg (by simp : ¬ (false = true))]
          rw [mul_assoc]
          exact neg_ne_zero.mpr (ne_of_gt hpos)
        · simp only [mkEntry, if_pos rfl]
          rw [mul_assoc]
          exact ne_of_gt hpos

theorem mem_calculate_keyness {text : String} {r : Option (List (String × ℚ))}
    {e : KeyEntry} (h : e ∈ calculate_keyness text r) : e ∈ keynessScores text := by
  simp only [calculate_keyness] at h
  split at h
  · simp at h
  · have h1 : e ∈ ((keynessScores text).insertionSort byScoreDesc |>.filter
        (fun s => decide (0 < s.effect_size)) |>.take 12) ++
        ((keynessScores text).insertionSort byScoreDesc |>.filter
        (fun s => decide (s.effect_size < 0)) |>.take 12) :=
      (List.mem_insertionSort byScoreDesc).mp (List.take_subset 20 _ h)
    rcases List.mem_append.mp h1 with h2 | h2
    · exact (List.mem_insertionSort byScoreDesc).mp
        (List.mem_of_mem_filter (List.take_subset 12 _ h2))
    · exact (List.mem_insertionSort byScoreDesc).mp
        (List.mem_of_mem_filter (List.take_subset 12 _ h2))

theorem calculate_keyness_sorted (text : String) (r : Option (List (String × ℚ))) :
    (calculate_keyness text r).Pairwise byScoreDesc := by
  simp only [calculate_keyness]
  split
  · exact List.Pairwise.nil
  · exact (List.sorted_insertionSort byScoreDesc _).sublist (List.take_sublist 20 _)

theorem calculate_keyness_length_le (text : String) (r : Option (List (String × ℚ))) :
    (calculate_keyness text r).length ≤ 20 := by
  simp only [calculate_keyness]
  split
  · simp
  · exact List.length_take_le 20 _

theorem calculate_keyness_empty {text : String} (r : Option (List (String × ℚ)))
    (h : (tokenize text).length = 0) : calculate_keyness text r = [] := by
  simp only [calculate_keyness, if_pos h]

theorem calculate_keyness_pos_card (text : String) (r : Option (List (String × ℚ))) :
    ((calculate_keyness text r).filter
      (fun e => decide (0 < e.effect_size))).length ≤ 12 := by
  simp only [calculate_keyness]
  split
  · simp
  · set P : KeyEntry → Bool := fun e => decide (0 < e.effect_size) with hP
    set sorted0 := (keynessScores text).insertionSort byScoreDesc with hs0
    set posl := (sorted0.filter P).take 12 with hpos
    set negl := (sorted0.filter (fun s => decide (s.effect_size < 0))).take 12 with hneg
    have hsub : List.Sublist
        (((posl ++ negl).insertionSort byScoreDesc |>.take 20).filter P)
        (((posl ++ negl).insertionSort byScoreDesc).filter P) :=
      List.Sublist.filter P (List.take_sublist 20 _)
    have hperm : (((posl ++ negl).insertionSort byScoreDesc).filter P).length =
        ((posl ++ negl).filter P).length :=
      ((List.perm_insertionSort byScoreDesc (posl ++ negl)).filter P).length_eq
    have hposall : posl.filter P = posl := by
      refine List.filter_eq_self.mpr ?_
      intro a ha
      exact List.of_mem_filter (List.take_subset 12 _ ha)
    have hnegnone : negl.filter P = [] := by
      refine List.filter_eq_nil_iff.mpr ?_
      intro a ha
      have h' : a.effect_size < 0 := by
        simpa using List.of_mem_filter (List.take_subset 12 _ ha)
      simp [hP, not_lt.mpr (le_of_lt h')]
    calc (((posl ++ negl).insertionSort byScoreDesc |>.take 20).filter P).length
        ≤ (((posl ++ negl).insertionSort byScoreDesc).filter P).length :=
          hsub.length_le
      _ = ((posl ++ negl).filter P).length := hperm
      _ = (posl.filter P).length + (negl.filter P).length := by
          rw [List.filter_append, List.length_append]
      _ = posl.length := by simp [hposall, hnegnone]
      _ ≤ 12 := by rw [hpos]; exact List.length_take_le 12 _

theorem calculate_keyness_neg_card (text : String) (r : Option (List (String × ℚ))) :
    ((calculate_keyness text r).filter
      (fun e => decide (e.effect_size < 0))).length ≤ 12 := by
  simp only [calculate_keyness]
  split
  · simp
  · set P : KeyEntry → Bool := fun e => decide (e.effect_size < 0) with hP
    set sorted0 := (keynessScores text).insertionSort byScoreDesc with hs0
    set posl := (sorted0.filter (fun s => decide (0 < s.effect_size))).take 12 with hpos
    set negl := (sorted0.filter P).take 12 with hneg
    have hsub : List.Sublist
        (((posl ++ negl).insertionSort byScoreDesc |>.take 20).filter P)
        (((posl ++ negl).insertionSort byScoreDesc).filter P) :=
      List.Sublist.filter P (List.take_sublist 20 _)
    have hperm : (((posl ++ negl).insertionSort byScoreDesc).filter P).length =
        ((posl ++ negl).filter P).length :=
      ((List.perm_insertionSort byScoreDesc (posl ++ negl)).filter P).length_eq
    have hnegall : negl.filter P = negl := by
      refine List.filter_eq_self.mpr ?_
      intro a ha
      exact List.of_mem_filter (List.take_subset 12 _ ha)
    have hposnone : posl.filter P = [] := by
      refine List.filter_eq_nil_iff.mpr ?_
      intro a ha
      have h' : 0 < a.effect_size := by
        simpa using List.of_mem_filter (List.take_subset 12 _ ha)
      simp [hP, not_lt.mpr (le_of_lt h')]
    calc (((posl ++ negl).insertionSort byScoreDesc |>.take 20).filter P).length
        ≤ (((posl ++ negl).insertionSort byScoreDesc).filter P).length :=
          hsub.length_le
      _ = ((posl ++ negl).filter P).length := hperm
      _ = (posl.filter P).length + (negl.filter P).length := by
          rw [List.filter_append, List.length_append]
      _ = negl.length := by simp [hposnone, hnegall]
      _ ≤ 12 := by rw [hneg]; exact List.length_take_le 12 _

/-! ## Claims C3, C4, C10: the keyness stage -/

/-- Reference relative frequency used by the specification: the built-in
default table, with a 1/10000 epsilon for absent words. -/
def specRefFreq (w : String) : ℚ :=
  match default_frequencies.lookup w with
  | some q => q
  | none => 1/10000

/-- The per-word scoring formula claimed by the specification: a
log-likelihood score together with an effect size of score over the
square root of the frequency. -/
def specC3KeynessFormula (text : String) : Prop :=
  ∀ e ∈ calculate_keyness text none,
    ((e.score : ℝ) = 2 * (e.frequency : ℝ) *
        Real.log ((((e.frequency : ℚ) / (((tokenize text).length : ℕ) : ℚ) : ℚ) : ℝ) /
          ((specRefFreq e.word : ℚ) : ℝ)) ∧
      (e.effect_size : ℝ) = (e.score : ℝ) / Real.sqrt ((e.frequency : ℕ) : ℝ))

/-- The single keyness entry the implementation produces for the input
consisting of the word good four times. -/
def goodEntry : KeyEntry :=
  { word := "good", score := 60, raw_score := 60, effect_size := 60,
    frequency := 4, sentiment := "positive", confidence := 19/20 }

unseal Rat.mul Rat.inv Rat.add Rat.sub in
/-- C3 counterexample: on the input consisting of the word good four
times, the implementation returns score 60 and effect size 60, while the
claimed effect size would be 60 over the square root of 4, namely 30, so
the claimed per-word formula fails. -/
theorem C3_counterexample : ¬ specC3KeynessFormula "good good good good" := by
  intro h
  have hmem : goodEntry ∈ calculate_keyness "good good good good" none := by decide
  obtain ⟨-, h2⟩ := h _ hmem
  rw [show ((goodEntry.frequency : ℕ) : ℝ) = 2^2 by norm_num [goodEntry],
    Real.sqrt_sq (by norm_num : (0:ℝ) ≤ 2)] at h2
  rw [show goodEntry.effect_size = 60 from rfl,
    show goodEntry.score = 60 from rfl] at h2
  norm_num at h2

/-- C3 (amended): each returned keyness entry for a classified candidate
word (frequency at least 2, length at least 3, not a stop word) carries
effect size plus-or-minus relFreq times freq times 15, score equal to the
absolute effect size (hence freq squared times 15 over the token count),
and confidence min 0.95 (relFreq times 20); no log-likelihood and no
underused reference words are involved. -/
theorem C3_amended_keyness_formula (text : String) (r : Option (List (String × ℚ)))
    (e : KeyEntry) (h : e ∈ calculate_keyness text r) :
    e.score = |e.effect_size| ∧
    e.raw_score = e.effect_size ∧
    e.score = ((e.frequency : ℚ))^2 * 15 / (((tokenize text).length : ℕ) : ℚ) ∧
    e.confidence = min (19/20)
      ((e.frequency : ℚ) * 20 / (((tokenize text).length : ℕ) : ℚ)) ∧
    2 ≤ e.frequency ∧ e.effect_size ≠ 0 := by
  obtain ⟨h1, h2, h3, h4, h5, h6, h7, h8, h9⟩ :=
    keynessScores_entry (mem_calculate_keyness h)
  exact ⟨h3, h4, h5, h6, h1, h9⟩

unseal Rat.mul Rat.inv Rat.add Rat.sub in
/-- C3 witness: the amended formula evaluated on a concrete input. -/
theorem C3_amended_witness :
    goodEntry.score =
      ((goodEntry.frequency : ℚ))^2 * 15 /
        (((tokenize "good good good good").length : ℕ) : ℚ) := by
  have h := C3_amended_keyness_formula "good good good good" none
    goodEntry (by decide)
  exact h.2.2.1

/-- C10: the `reference_freq` parameter of `calculate_keyness`, and in
particular the built-in default frequency table, have no effect on the
returned keyword list. -/
theorem C10_reference_freq_ignored (text : String) (r : List (String × ℚ)) :
    calculate_keyness text (some r) = calculate_keyness text none ∧
    calculate_keyness text (some default_frequencies) =
      calculate_keyness text none :=
  ⟨rfl, rfl⟩

/-- C4: the keyword list produced by the pipeline from the keyness stage
is well-formed: empty token stream gives an empty list; the positive and
negative subsets are capped at 12 each; the merged list is truncated to
20 and sorted by non-increasing absolute score; the 1-based ranks are
exactly 1..N in order; positive items have frequency at least 1; every
confidence lies in the closed interval from 0 to 0.95. -/
theorem C4_keyword_list_well_formed (text : String) (r : Option (List (String × ℚ))) :
    ((tokenize text).length = 0 → enhanceKeywords (calculate_keyness text r) = []) ∧
    ((enhanceKeywords (calculate_keyness text r)).filter
        (fun e => decide (0 < e.effect_size))).length ≤ 12 ∧
    ((enhanceKeywords (calculate_keyness text r)).filter
        (fun e => decide (e.effect_size < 0))).length ≤ 12 ∧
    (enhanceKeywords (calculate_keyness text r)).length ≤ 20 ∧
    (enhanceKeywords (calculate_keyness text r)).Pairwise
      (fun a b => |b.score| ≤ |a.score|) ∧
    (enhanceKeywords (calculate_keyness text r)).map (fun e => e.rank) =
      List.range' 1 (enhanceKeywords (calculate_keyness text r)).length ∧
    (∀ e ∈ enhanceKeywords (calculate_keyness text r),
      0 < e.effect_size → 1 ≤ e.frequency) ∧
    (∀ e ∈ enhanceKeywords (calculate_keyness text r),
      0 ≤ e.confidence ∧ e.confidence ≤ 19/20) := by
  have hscorenn : ∀ e ∈ enhanceKeywords (calculate_keyness text r), 0 ≤ e.score := by
    intro e he
    obtain ⟨k, hk, -, hs, -⟩ := mem_enhanceFrom he
    obtain ⟨-, -, habs, -⟩ := keynessScores_entry (mem_calculate_keyness hk)
    rw [hs, habs]
    exact abs_nonneg _
  refine ⟨?_, ?_, ?_, ?_, ?_, ?_, ?_, ?_⟩
  · intro h
    rw [calculate_keyness_empty r h]
    rfl
  · have := enhanceFrom_filter_length 0 (calculate_keyness text r)
      (fun q => 0 < q)
    calc ((enhanceKeywords (calculate_keyness text r)).filter
          (fun e => decide (0 < e.effect_size))).length
        = ((calculate_keyness text r).filter
          (fun e => decide (0 < e.effect_size))).length := this
      _ ≤ 12 := calculate_keyness_pos_card text r
  · have := enhanceFrom_filter_length 0 (calculate_keyness text r)
      (fun q => q < 0)
    calc ((enhanceKeywords (calculate_keyness text r)).filter
          (fun e => decide (e.effect_size < 0))).length
        = ((calculate_keyness text r).filter
          (fun e => decide (e.effect_size < 0))).length := this
      _ ≤ 12 := calculate_keyness_neg_card text r
  · rw [enhanceKeywords, enhanceFrom_length]
    exact calculate_keyness_length_le text r
  · have hp := @enhanceFrom_pairwise (calculate_keyness text r) 0 (calculate_keyness_sorted text r)
    refine List.Pairwise.imp_of_mem ?_ hp
    intro a b ha hb hab
    rw [abs_of_nonneg (hscorenn a ha), abs_of_nonneg (hscorenn b hb)]
    exact hab
  · rw [enhanceKeywords, enhanceFrom_map_rank, enhanceFrom_length]
  · intro e he hpos
    obtain ⟨k, hk, -, -, hf, -⟩ := mem_enhanceFrom he
    obtain ⟨h2, -⟩ := keynessScores_entry (mem_calculate_keyness hk)
    rw [hf]
    exact le_trans (by norm_num) h2
  · intro e he
    obtain ⟨k, hk, -, -, -, -, hc⟩ := mem_enhanceFrom he
    obtain ⟨-, -, -, -, -, -, hc1, hc2, -⟩ :=
      keynessScores_entry (mem_calculate_keyness hk)
    rw [hc]
    exact ⟨hc1, hc2⟩

/-- The enhanced keyword the pipeline produces for the input consisting
of the word good four times. -/
def goodItem : KeywordItem :=
  { word := "good", score := 60, frequency := 4, rank := 1,
    effect_size := 60, confidence := 19/20 }

unseal Rat.mul Rat.inv Rat.add Rat.sub in
/-- C4 witness: the well-formedness conclusions evaluated on concrete
inputs, an empty text and a four-word text. -/
theorem C4_witness :
    enhanceKeywords (calculate_keyness "" none) = [] ∧
    (0 ≤ goodItem.confidence ∧ goodItem.confidence ≤ 19/20) :=
  ⟨(C4_keyword_list_well_formed "" none).1 (by decide),
    (C4_keyword_list_well_formed "good good good good" none).2.2.2.2.2.2.2
      goodItem (by decide)⟩

/-! ## Claim C7: the sentiment aggregator -/

theorem sentimentCounts_aux (ps : List ℚ) (a b c : ℕ) :
    ps.foldl
      (fun acc p =>
        if (1 : ℚ)/10 < p then (acc.1 + 1, acc.2.1, acc.2.2)
        else if p < -(1/10) then (acc.1, acc.2.1 + 1, acc.2.2)
        else (acc.1, acc.2.1, acc.2.2 + 1))
      (a, b, c) =
    (a + (ps.filter (fun p => decide ((1 : ℚ)/10 < p))).length,
     b + (ps.filter (fun p => decide (p < -(1/10)))).length,
     c + (ps.filter (fun p =>
        decide (¬((1 : ℚ)/10 < p) ∧ ¬(p < -(1/10))))).length) := by
  induction ps generalizing a b c with
  | nil => simp
  | cons p ps ih =>
    by_cases h1 : (1 : ℚ)/10 < p
    · have h2 : ¬(p < -(1/10)) :=
        not_lt.mpr (le_trans (by norm_num) (le_of_lt h1))
      simp only [List.foldl_cons, if_pos h1, ih, List.filter_cons,
        decide_eq_true h1, decide_eq_false h2,
        decide_eq_false (fun hc => hc.1 h1 : ¬(¬((1 : ℚ)/10 < p) ∧ ¬(p < -(1/10)))),
        eq_self_iff_true, if_true, Bool.false_eq_true, if_false,
        List.length_cons, Prod.mk.injEq, true_and, and_true]
      omega
    · by_cases h2 : p < -(1/10)
      · simp only [List.foldl_cons, if_neg h1, if_pos h2, ih, List.filter_cons,
          decide_eq_false h1, decide_eq_true h2,
          decide_eq_false (fun hc => hc.2 h2 : ¬(¬((1 : ℚ)/10 < p) ∧ ¬(p < -(1/10)))),
          eq_self_iff_true, if_true, Bool.false_eq_true, if_false,
          List.length_cons, Prod.mk.injEq, true_and, and_true]
        omega
      · simp only [List.foldl_cons, if_neg h1, if_neg h2, ih, List.filter_cons,
          decide_eq_false h1, decide_eq_false h2,
          decide_eq_true (And.intro h1 h2),
          eq_self_iff_true, if_true, Bool.false_eq_true, if_false,
          List.length_cons, Prod.mk.injEq, true_and, and_true]
        omega

theorem sentimentCounts_eq (ps : List ℚ) :
    sentimentCounts ps =
      ((ps.filter (fun p => decide ((1 : ℚ)/10 < p))).length,
       (ps.filter (fun p => decide (p < -(1/10)))).length,
       (ps.filter (fun p =>
          decide (¬((1 : ℚ)/10 < p) ∧ ¬(p < -(1/10))))).length) := by
  simpa [sentimentCounts] using sentimentCounts_aux ps 0 0 0

theorem sentiment_filter_partition (ps : List ℚ) :
    (ps.filter (fun p => decide ((1 : ℚ)/10 < p))).length +
      (ps.filter (fun p => decide (p < -(1/10)))).length +
      (ps.filter (fun p =>
        decide (¬((1 : ℚ)/10 < p) ∧ ¬(p < -(1/10))))).length = ps.length := by
  induction ps with
  | nil => rfl
  | cons p ps ih =>
    by_cases h1 : (1 : ℚ)/10 < p
    · have h2 : ¬(p < -(1/10)) :=
        not_lt.mpr (le_trans (by norm_num) (le_of_lt h1))
      simp only [List.filter_cons,
        decide_eq_true h1, decide_eq_false h2,
        decide_eq_false (fun hc => hc.1 h1 : ¬(¬((1 : ℚ)/10 < p) ∧ ¬(p < -(1/10)))),
        eq_self_iff_true, if_true, Bool.false_eq_true, if_false,
        List.length_cons]
      omega
    · by_cases h2 : p < -(1/10)
      · simp only [List.filter_cons,
          decide_eq_false h1, decide_eq_true h2,
          decide_eq_false (fun hc => hc.2 h2 : ¬(¬((1 : ℚ)/10 < p) ∧ ¬(p < -(1/10)))),
          eq_self_iff_true, if_true, Bool.false_eq_true, if_false,
          List.length_cons]
        omega
      · simp only [List.filter_cons,
          decide_eq_false h1, decide_eq_false h2,
          decide_eq_true (And.intro h1 h2),
          eq_self_iff_true, if_true, Bool.false_eq_true, if_false,
          List.length_cons]
        omega

theorem pyTotal_eq_max (l : List ℚ) :
    (if l.isEmpty then 1 else l.length) = max l.length 1 := by
  cases l with
  | nil => rfl
  | cons x xs => simp [Nat.max_eq_left (Nat.succ_le_succ (Nat.zero_le _))]

/-- C7: the sentiment aggregator classifies each sentence positive when
its polarity exceeds 0.1, negative when below -0.1, neutral otherwise;
each percentage equals 100 times the class count over the sentence count
floored at 1; for a non-empty sentence set the three percentages sum to
exactly 100. -/
theorem C7_sentiment_aggregation (textblob : String → TextBlobData) (text : String) :
    (analyze_sentiment textblob text).overall = (textblob text).overall ∧
    (analyze_sentiment textblob text).positive =
      100 * (((textblob text).sentencePolarities.filter
          (fun p => decide ((1 : ℚ)/10 < p))).length : ℚ) /
        ((max (textblob text).sentencePolarities.length 1 : ℕ) : ℚ) ∧
    (analyze_sentiment textblob text).negative =
      100 * (((textblob text).sentencePolarities.filter
          (fun p => decide (p < -(1/10)))).length : ℚ) /
        ((max (textblob text).sentencePolarities.length 1 : ℕ) : ℚ) ∧
    (analyze_sentiment textblob text).neutral =
      100 * (((textblob text).sentencePolarities.filter
          (fun p => decide (¬((1 : ℚ)/10 < p) ∧ ¬(p < -(1/10))))).length : ℚ) /
        ((max (textblob text).sentencePolarities.length 1 : ℕ) : ℚ) ∧
    ((textblob text).sentencePolarities ≠ [] →
      (analyze_sentiment textblob text).positive +
        (analyze_sentiment textblob text).negative +
        (analyze_sentiment textblob text).neutral = 100) := by
  set ps := (textblob text).sentencePolarities with hps
  have htot : (if ps.isEmpty then 1 else ps.length) = max ps.length 1 :=
    pyTotal_eq_max ps
  have hcounts := sentimentCounts_eq ps
  refine ⟨rfl, ?_, ?_, ?_, ?_⟩
  · simp only [analyze_sentiment, ← hps, hcounts, htot]
    rw [div_mul_eq_mul_div, mul_comm]
  · simp only [analyze_sentiment, ← hps, hcounts, htot]
    rw [div_mul_eq_mul_div, mul_comm]
  · simp only [analyze_sentiment, ← hps, hcounts, htot]
    rw [div_mul_eq_mul_div, mul_comm]
  · intro hne
    have hlen : 0 < ps.length := List.length_pos.mpr hne
    have hmax : max ps.length 1 = ps.length := Nat.max_eq_left hlen
    have hT : ((max ps.length 1 : ℕ) : ℚ) ≠ 0 := by
      rw [hmax]
      exact_mod_cast Nat.pos_iff_ne_zero.mp hlen
    simp only [analyze_sentiment, ← hps, hcounts, htot]
    have hpart := sentiment_filter_partition ps
    rw [div_mul_eq_mul_div, div_mul_eq_mul_div, div_mul_eq_mul_div,
      div_add_div_same, div_add_div_same]
    rw [← add_mul, ← add_mul]
    have : ((ps.filter (fun p => decide ((1 : ℚ)/10 < p))).length : ℚ) +
        ((ps.filter (fun p => decide (p < -(1/10)))).length : ℚ) +
        ((ps.filter (fun p =>
          decide (¬((1 : ℚ)/10 < p) ∧ ¬(p < -(1/10))))).length : ℚ) =
        ((max ps.length 1 : ℕ) : ℚ) := by
      rw [hmax]
      exact_mod_cast hpart
    rw [this, mul_comm, mul_div_assoc, div_self hT, mul_one]

/-- A concrete TextBlob collaborator with one positive, one negative and
one neutral sentence. -/
def tbDemo : String → TextBlobData :=
  fun _ => { overall := 0, sentencePolarities := [1/2, -(1/2), 0] }

/-- C7 witness: the percentages of a concrete three-sentence input sum to
exactly 100. -/
theorem C7_witness :
    (analyze_sentiment tbDemo "demo").positive +
      (analyze_sentiment tbDemo "demo").negative +
      (analyze_sentiment tbDemo "demo").neutral = 100 :=
  (C7_sentiment_aggregation tbDemo "demo").2.2.2.2 (by decide)

/-! ## Claim C8: the statistics stage -/

theorem dedupFirstAux_length_le (seen l : List String) :
    (dedupFirstAux seen l).length ≤ l.length := by
  induction l generalizing seen with
  | nil => simp [dedupFirstAux]
  | cons w ws ih =>
    rw [dedupFirstAux]
    split
    · exact le_trans (ih _) (Nat.le_succ _)
    · simpa using Nat.succ_le_succ (ih _)

theorem dedupFirst_length_le (l : List String) :
    (dedupFirst l).length ≤ l.length := dedupFirstAux_length_le [] l

theorem clamp_bounds (x : ℚ) : 0 ≤ max 0 (min 100 x) ∧ max 0 (min 100 x) ≤ 100 :=
  ⟨le_max_left _ _, max_le (by norm_num) (min_le_left _ _)⟩

/-- C8: for any non-empty input text the statistics stage yields a
vocabulary richness in the closed unit interval and a readability score
in the interval from 0 to 100; the paragraph count is floored at 1; per
word syllable counting is floored at 1; and when the text has at least
one sentence and one word, the readability score is exactly the Flesch
formula 206.835 minus 1.015 times the average sentence length minus 84.6
times the average syllables per word, clamped to the interval. -/
theorem C8_statistics_bounds (original cleaned : String) (h : original ≠ "") :
    0 ≤ (calculate_text_statistics original cleaned).vocabulary_richness ∧
    (calculate_text_statistics original cleaned).vocabulary_richness ≤ 1 ∧
    0 ≤ (calculate_text_statistics original cleaned).readability_score ∧
    (calculate_text_statistics original cleaned).readability_score ≤ 100 ∧
    1 ≤ (calculate_text_statistics original cleaned).paragraph_count ∧
    (∀ w : String, 1 ≤ count_syllables w) ∧
    (0 < (calculate_text_statistics original cleaned).sentence_count →
      0 < (calculate_text_statistics original cleaned).word_count →
      (calculate_text_statistics original cleaned).readability_score =
        max 0 (min 100 (206835/1000 -
          (1015/1000) * (calculate_text_statistics original cleaned).avg_sentence_length -
          (846/10) * ((((pySplitWs cleaned).map count_syllables).sum : ℕ) : ℚ) /
            (((calculate_text_statistics original cleaned).word_count : ℕ) : ℚ)))) := by
  have hu : (dedupFirst ((pySplitWs cleaned).map String.toLower)).length ≤
      (pySplitWs cleaned).length := by
    calc (dedupFirst ((pySplitWs cleaned).map String.toLower)).length
        ≤ ((pySplitWs cleaned).map String.toLower).length := dedupFirst_length_le _
      _ = (pySplitWs cleaned).length := List.length_map _ _
  refine ⟨?_, ?_, ?_, ?_, ?_, ?_, ?_⟩
  · simp only [calculate_text_statistics]
    positivity
  · simp only [calculate_text_statistics]
    refine div_le_one_of_le ?_ (by positivity)
    have h1 : (dedupFirst ((pySplitWs cleaned).map String.toLower)).length ≤
        max (pySplitWs cleaned).length 1 := le_trans hu (le_max_left _ _)
    exact_mod_cast h1
  · simp only [calculate_text_statistics]
    split
    · exact (clamp_bounds _).1
    · exact le_refl 0
  · simp only [calculate_text_statistics]
    split
    · exact (clamp_bounds _).2
    · norm_num
  · simp only [calculate_text_statistics]
    exact le_max_right _ _
  · intro w
    simp only [count_syllables]
    exact Nat.le_max_left 1 _
  · intro hsc hwc
    simp only [calculate_text_statistics] at hsc hwc ⊢
    rw [if_pos ⟨hsc, hwc⟩]
    rw [mul_div_assoc]

/-- C8 witness: the bounds evaluated on a concrete non-empty text. -/
theorem C8_witness :
    0 ≤ (calculate_text_statistics "Hello world." "Hello world.").vocabulary_richness ∧
    (calculate_text_statistics "Hello world." "Hello world.").vocabulary_richness ≤ 1 ∧
    0 ≤ (calculate_text_statistics "Hello world." "Hello world.").readability_score ∧
    (calculate_text_statistics "Hello world." "Hello world.").readability_score ≤ 100 ∧
    1 ≤ (calculate_text_statistics "Hello world." "Hello world.").paragraph_count := by
  have h := C8_statistics_bounds "Hello world." "Hello world." (by decide)
  exact ⟨h.1, h.2.1, h.2.2.1, h.2.2.2.1, h.2.2.2.2.1⟩

/-! ## Claims C5 and C6: the clusterer -/

theorem sum_map_add {α : Type} (l : List α) (f g : α → ℕ) :
    (l.map (fun i => f i + g i)).sum = (l.map f).sum + (l.map g).sum := by
  induction l with
  | nil => rfl
  | cons x xs ih => simp [ih]; omega

theorem sum_indicator_range (n j : ℕ) (h : j < n) :
    ((List.range n).map (fun i => if j = i then 1 else 0)).sum = 1 := by
  induction n with
  | zero => omega
  | succ n ih =>
    rw [List.range_succ, List.map_append, List.sum_append]
    by_cases hj : j = n
    · subst hj
      have hnot : ((List.range j).map (fun i => if j = i then 1 else 0)).sum = 0 := by
        refine List.sum_eq_zero ?_
        intro x hx
        obtain ⟨i, hi, hxeq⟩ := List.mem_map.mp hx
        have hne : j ≠ i := fun hcon => by
          subst hcon; exact absurd (List.mem_range.mp hi) (by omega)
        simpa [hne] using hxeq.symm
      simp [hnot]
    · have hjn : j < n := by omega
      simp [ih hjn, hj]

theorem countPartition (n : ℕ) (ps : List (String × ℕ))
    (h : ∀ p ∈ ps, p.2 < n) :
    ((List.range n).map
      (fun i => (ps.filter (fun p => decide (p.2 = i))).length)).sum = ps.length := by
  induction ps with
  | nil => simp
  | cons p ps ih =>
    have hstep : ∀ i : ℕ, ((p :: ps).filter (fun q => decide (q.2 = i))).length =
        (if p.2 = i then 1 else 0) +
          (ps.filter (fun q => decide (q.2 = i))).length := by
      intro i
      by_cases hpi : p.2 = i
      · simp [List.filter_cons, hpi]
        omega
      · simp [List.filter_cons, hpi]
    rw [List.map_congr_left (fun i _ => hstep i), sum_map_add,
      sum_indicator_range n p.2 (h p (List.mem_cons_self p ps)),
      ih (fun q hq => h q (List.mem_cons_of_mem p hq))]
    simp [List.length_cons, Nat.add_comm]

theorem generate_word_coordinates_length_le (cosF sinF : ℚ → ℚ)
    (words : List String) (cid : ℕ) :
    (generate_word_coordinates cosF sinF words cid).length ≤ 20 := by
  simp only [generate_word_coordinates, List.length_map, List.enum_length]
  exact List.length_take_le 20 words

/-- C6: with at least 2k qualifying sentences (and k at least 2, so the
clamp of the specification is the identity), a successful clustering run
returns exactly k clusters, their sizes sum to the number of qualifying
sentences, and every display-coordinate list built by the pipeline from a
cluster has length at most 20. The external KMeans call is assumed to
return one label per sentence, each below k. -/
theorem C6_cluster_counts (env : SkEnv) (text : String) (k : ℕ)
    (feats : List String) (labels : List ℕ)
    (hk2 : 2 ≤ k)
    (hs2k : 2 * k ≤ (split_sentences text).length)
    (hv : env.vectorize (split_sentences text) = Except.ok feats)
    (hkm : env.kmeans (split_sentences text) k = Except.ok labels)
    (hlen : labels.length = (split_sentences text).length)
    (hlab : ∀ l ∈ labels, l < k) :
    (create_clusters env text k).length = k ∧
    ((create_clusters env text k).map (fun c => c.size)).sum =
      (split_sentences text).length ∧
    ∀ c ∈ create_clusters env text k, ∀ cosF sinF : ℚ → ℚ,
      (generate_word_coordinates cosF sinF c.words c.id).length ≤ 20 := by
  have hnlt : ¬ ((split_sentences text).length < k) := by omega
  have hclamp : clampedN2 (split_sentences text).length k = k := by
    simp [clampedN2, clampedN, hnlt]
  have hexpand : create_clusters env text k =
      (List.range k).map (buildCluster (split_sentences text) labels feats) := by
    simp only [create_clusters, hv, hclamp, hkm]
  refine ⟨?_, ?_, ?_⟩
  · rw [hexpand, List.length_map, List.length_range]
  · have hzlen : ((split_sentences text).zip labels).length =
        (split_sentences text).length := by
      rw [List.length_zip, hlen, Nat.min_self]
    have hzlab : ∀ p ∈ (split_sentences text).zip labels, p.2 < k := by
      intro p hp
      exact hlab p.2 (List.of_mem_zip hp).2
    have hsize : ∀ i ∈ List.range k,
        ((fun c => RawCluster.size c) ∘
          buildCluster (split_sentences text) labels feats) i =
        (((split_sentences text).zip labels).filter
          (fun p => decide (p.2 = i))).length := by
      intro i _
      simp [buildCluster, List.length_map]
    rw [hexpand, List.map_map, List.map_congr_left hsize,
      countPartition k _ hzlab, hzlen]
  · intro c hc cosF sinF
    exact generate_word_coordinates_length_le cosF sinF c.words c.id

/-- A concrete successful clustering environment: one feature name, and a
KMeans collaborator that labels four sentences alternately 0 and 1. -/
def skDemoEnv : SkEnv :=
  { vectorize := fun _ => Except.ok ["learning"],
    kmeans := fun _ _ => Except.ok [0, 1, 0, 1] }

/-- A concrete text with four qualifying sentences. -/
def demoClusterText : String :=
  "students study machine learning daily. privacy concerns grow in modern classrooms. creative solutions improve learning outcomes. the quick brown fox jumps over fences."

/-- C6 witness: the cluster-count conclusions on a concrete run with
k = 2 and four qualifying sentences. -/
theorem C6_witness :
    (create_clusters skDemoEnv demoClusterText 2).length = 2 ∧
    ((create_clusters skDemoEnv demoClusterText 2).map (fun c => c.size)).sum =
      (split_sentences demoClusterText).length := by
  have h := C6_cluster_counts skDemoEnv demoClusterText 2 ["learning"] [0, 1, 0, 1]
    (by decide) (by decide) rfl rfl (by decide) (by decide)
  exact ⟨h.1, h.2.1⟩

/-- The cluster-count clamp described by the specification: at least 2,
at most half the qualifying sentences. -/
def specClampedK (text : String) (k : ℕ) : ℕ :=
  max 2 (min k ((split_sentences text).length / 2))

/-- A clustering environment whose vectorizer succeeds but whose
PCA-plus-KMeans chain raises, as happens for a single input sentence
(PCA with 10 components needs at least 10 samples). -/
def skFailEnv : SkEnv :=
  { vectorize := fun _ => Except.ok ["sentence"],
    kmeans := fun _ _ => Except.error "n_components=10 must be between 0 and min(n_samples, n_features)" }

/-- C5 counterexample: on a text with a single qualifying sentence whose
clustering raises, the fallback returns 5 groups while the clamped target
cluster count is 2; the fallback ignores the clamp. -/
theorem C5_counterexample :
    ¬ ((create_clusters skFailEnv
        "artificial intelligence reshapes modern classrooms today" 5).length =
      specClampedK "artificial intelligence reshapes modern classrooms today" 5) := by
  decide

/-- C5 (amended): whenever vectorization or clustering raises,
`create_clusters` returns the naive fallback partition, which always has
exactly 5 groups labeled Group 1 through Group 5 of at most 6 words each,
regardless of the requested or clamped cluster count. -/
theorem C5_amended_fallback (env : SkEnv) (text : String) (n : ℕ)
    (h : (∃ e, env.vectorize (split_sentences text) = Except.error e) ∨
      (∃ fs e, env.vectorize (split_sentences text) = Except.ok fs ∧
        env.kmeans (split_sentences text)
          (clampedN2 (split_sentences text).length n) = Except.error e)) :
    create_clusters env text n = fallback_clusters text ∧
    (fallback_clusters text).length = 5 ∧
    (fallback_clusters text).map (fun c => c.label) =
      ["Group 1", "Group 2", "Group 3", "Group 4", "Group 5"] ∧
    ∀ c ∈ fallback_clusters text, c.size ≤ 6 := by
  refine ⟨?_, ?_, ?_, ?_⟩
  · rcases h with ⟨e, hv⟩ | ⟨fs, e, hv, hkm⟩
    · simp only [create_clusters, hv]
    · simp only [create_clusters, hv, hkm]
  · simp [fallback_clusters]
  · simp [fallback_clusters, List.range_succ]
    decide
  · intro c hc
    obtain ⟨i, hi, hceq⟩ := List.mem_map.mp hc
    rw [← hceq]
    simpa [fallback_clusters] using List.length_take_le 6 _

/-- C5 witness: the amended fallback behaviour on the concrete
single-sentence input with a raising clustering chain. -/
theorem C5_witness :
    create_clusters skFailEnv
        "artificial intelligence reshapes modern classrooms today" 5 =
      fallback_clusters "artificial intelligence reshapes modern classrooms today" ∧
    (fallback_clusters
        "artificial intelligence reshapes modern classrooms today").length = 5 := by
  have h := C5_amended_fallback skFailEnv
    "artificial intelligence reshapes modern classrooms today" 5
    (Or.inr ⟨["sentence"],
      "n_components=10 must be between 0 and min(n_samples, n_features)", rfl, rfl⟩)
  exact ⟨h.1, h.2.1⟩

/-! ## Claim C9: the results cache -/

theorem lookup_filter_ne (cache : Store) (analysis_id : String) :
    List.lookup analysis_id
      (cache.filter (fun kv => kv.1 ≠ analysis_id)) = none := by
  induction cache with
  | nil => rfl
  | cons kv rest ih =>
    cases kv with
    | mk k v =>
      by_cases hkv : k = analysis_id
      · have hd : decide ((k, v).1 ≠ analysis_id) = false :=
          decide_eq_false (fun hn => hn hkv)
        rw [List.filter_cons, hd, if_neg (by simp)]
        exact ih
      · have hd : decide ((k, v).1 ≠ analysis_id) = true := decide_eq_true hkv
        rw [List.filter_cons, hd, if_pos rfl]
        have hbeq : (analysis_id == k) = false :=
          beq_eq_false_iff_ne.mpr (fun hc => hkv hc.symm)
        simp only [List.lookup, hbeq]
        exact ih

/-- C9: `get` is idempotent and leaves the store unchanged; `consume`
returns the stored result and evicts it, so a second consume of the same
id returns the not-found marker and leaves the store unchanged. -/
theorem C9_store_get_consume (cache : Store) (analysis_id : String) :
    ((get_results cache analysis_id).2 = cache ∧
     (get_results ((get_results cache analysis_id).2) analysis_id).1 =
       (get_results cache analysis_id).1) ∧
    (∀ r s', download_results cache analysis_id = (some r, s') →
      download_results s' analysis_id = (none, s')) := by
  constructor
  · rcases hl : List.lookup analysis_id cache with - | r <;>
      simp [get_results, hl]
  · intro r s' h
    rcases hl : List.lookup analysis_id cache with - | r0
    · rw [download_results, hl] at h
      exact absurd (congrArg Prod.fst h) (by simp)
    · rw [download_results, hl] at h
      have hs' : s' = cache.filter (fun kv => kv.1 ≠ analysis_id) :=
        (congrArg Prod.snd h).symm
      subst hs'
      rw [download_results, lookup_filter_ne]

/-- A concrete completed analysis result. -/
def demoResult : AnalysisResult :=
  { id := "a", timestamp := "t", status := AnalysisStatus.completed,
    keyness := none, semanticClusters := none, semanticClustering := none,
    sentiment := none, textStatistics := none, aiInsights := none,
    metadata := none, error_message := none }

/-- A concrete store holding one result. -/
def demoStore : Store := [("a", demoResult)]

/-- C9 witness: consuming twice on a concrete one-entry store returns the
not-found marker the second time. -/
theorem C9_witness :
    download_results (demoStore.filter (fun kv => kv.1 ≠ "a")) "a" =
      (none, demoStore.filter (fun kv => kv.1 ≠ "a")) :=
  (C9_store_get_consume demoStore "a").2 demoResult
    (demoStore.filter (fun kv => kv.1 ≠ "a")) (by decide)

/-! ## Claims C1 and C2: the pipeline orchestrator -/

/-- Shape of a failed result: FAILED status, the captured message, and
metadata carrying both the recorded start and end timestamps; the soft
insight payload is absent. -/
def FailedShape (env : PipelineEnv) (parameters : Option (List (String × String)))
    (r : AnalysisResult) (e : String) : Prop :=
  r.status = AnalysisStatus.failed ∧
  r.error_message = some e ∧
  r.metadata = some (failMeta env parameters) ∧
  (failMeta env parameters).start_time = env.startTimestamp ∧
  (failMeta env parameters).end_time = env.endTimestamp ∧
  r.aiInsights = none

/-- C1: `analyze` is a total function into `AnalysisResult`, and when any
hard stage (normalization, statistics, keyness, clustering, sentiment)
raises with a non-empty message, the returned result is FAILED, carries
that non-empty error message, has metadata with both the start and end
timestamps populated, and has exactly the stage payloads that completed
before the failing stage. -/
theorem C1_failure_isolation (env : PipelineEnv) (text analysis_id : String)
    (parameters : Option (List (String × String))) :
    (∀ e, env.clean_text text = Except.error e → e ≠ "" →
      FailedShape env parameters (analyze env text analysis_id parameters) e ∧
      (analyze env text analysis_id parameters).error_message ≠ some "" ∧
      (analyze env text analysis_id parameters).textStatistics = none ∧
      (analyze env text analysis_id parameters).keyness = none ∧
      (analyze env text analysis_id parameters).semanticClustering = none ∧
      (analyze env text analysis_id parameters).sentiment = none) ∧
    (∀ ct e, env.clean_text text = Except.ok ct →
      env.statsStage text ct = Except.error e → e ≠ "" →
      FailedShape env parameters (analyze env text analysis_id parameters) e ∧
      (analyze env text analysis_id parameters).error_message ≠ some "" ∧
      (analyze env text analysis_id parameters).textStatistics = none ∧
      (analyze env text analysis_id parameters).keyness = none ∧
      (analyze env text analysis_id parameters).semanticClustering = none ∧
      (analyze env text analysis_id parameters).sentiment = none) ∧
    (∀ ct st e, env.clean_text text = Except.ok ct →
      env.statsStage text ct = Except.ok st →
      env.keynessStage ct = Except.error e → e ≠ "" →
      FailedShape env parameters (analyze env text analysis_id parameters) e ∧
      (analyze env text analysis_id parameters).error_message ≠ some "" ∧
      (analyze env text analysis_id parameters).textStatistics = some st ∧
      (analyze env text analysis_id parameters).keyness = none ∧
      (analyze env text analysis_id parameters).semanticClustering = none ∧
      (analyze env text analysis_id parameters).sentiment = none) ∧
    (∀ ct st kd e, env.clean_text text = Except.ok ct →
      env.statsStage text ct = Except.ok st →
      env.keynessStage ct = Except.ok kd →
      env.clusteringStage ct = Except.error e → e ≠ "" →
      FailedShape env parameters (analyze env text analysis_id parameters) e ∧
      (analyze env text analysis_id parameters).error_message ≠ some "" ∧
      (analyze env text analysis_id parameters).textStatistics = some st ∧
      ((analyze env text analysis_id parameters).keyness).isSome = true ∧
      (analyze env text analysis_id parameters).semanticClustering = none ∧
      (analyze env text analysis_id parameters).sentiment = none) ∧
    (∀ ct st kd cd e, env.clean_text text = Except.ok ct →
      env.statsStage text ct = Except.ok st →
      env.keynessStage ct = Except.ok kd →
      env.clusteringStage ct = Except.ok cd →
      env.sentimentStage ct = Except.error e → e ≠ "" →
      FailedShape env parameters (analyze env text analysis_id parameters) e ∧
      (analyze env text analysis_id parameters).error_message ≠ some "" ∧
      (analyze env text analysis_id parameters).textStatistics = some st ∧
      ((analyze env text analysis_id parameters).keyness).isSome = true ∧
      ((analyze env text analysis_id parameters).semanticClustering).isSome = true ∧
      (analyze env text analysis_id parameters).sentiment = none) := by
  refine ⟨?_, ?_, ?_, ?_, ?_⟩
  · intro e hcl hne
    have hr : analyze env text analysis_id parameters =
        failWith (initResult env analysis_id) env parameters e := by
      simp only [analyze, hcl]
    rw [hr]
    refine ⟨⟨rfl, rfl, rfl, rfl, rfl, rfl⟩, fun hc => hne (Option.some.inj hc), rfl, rfl, rfl, rfl⟩
  · intro ct e hcl hst hne
    have hr : analyze env text analysis_id parameters =
        failWith (initResult env analysis_id) env parameters e := by
      simp only [analyze, hcl, hst]
    rw [hr]
    refine ⟨⟨rfl, rfl, rfl, rfl, rfl, rfl⟩, fun hc => hne (Option.some.inj hc), rfl, rfl, rfl, rfl⟩
  · intro ct st e hcl hst hky hne
    have hr : analyze env text analysis_id parameters =
        failWith { initResult env analysis_id with textStatistics := some st }
          env parameters e := by
      simp only [analyze, hcl, hst, hky]
    rw [hr]
    refine ⟨⟨rfl, rfl, rfl, rfl, rfl, rfl⟩, fun hc => hne (Option.some.inj hc), rfl, rfl, rfl, rfl⟩
  · intro ct st kd e hcl hst hky hcs hne
    have hr : analyze env text analysis_id parameters =
        failWith { initResult env analysis_id with
          textStatistics := some st
          keyness := some (mkKeynessResult env kd) }
          env parameters e := by
      simp only [analyze, hcl, hst, hky, hcs]
    rw [hr]
    refine ⟨⟨rfl, rfl, rfl, rfl, rfl, rfl⟩, fun hc => hne (Option.some.inj hc),
      rfl, rfl, rfl, rfl⟩
  · intro ct st kd cd e hcl hst hky hcs hsent hne
    have hr : analyze env text analysis_id parameters =
        failWith { initResult env analysis_id with
          textStatistics := some st
          keyness := some (mkKeynessResult env kd)
          semanticClustering := some (mkClusteringResult env cd)
          semanticClusters := some (cd.map (enhanceCluster env)) }
          env parameters e := by
      simp only [analyze, hcl, hst, hky, hcs, hsent]
    rw [hr]
    refine ⟨⟨rfl, rfl, rfl, rfl, rfl, rfl⟩, fun hc => hne (Option.some.inj hc),
      rfl, rfl, rfl, rfl⟩

/-- A concrete pipeline environment whose keyness stage raises. -/
def envFailKeyness : PipelineEnv :=
  { startTimestamp := "2026-01-01T00:00:00", endTimestamp := "2026-01-01T00:00:01",
    elapsed := 1, keynessMs := 1, clusteringMs := 1, sentimentMs := 1,
    clean_text := fun t => Except.ok t,
    statsStage := fun o c => Except.ok (calculate_text_statistics o c),
    keynessStage := fun _ => Except.error "boom",
    clusteringStage := fun _ => Except.ok [],
    sentimentStage := fun _ =>
      Except.ok { overall := 0, positive := 0, negative := 0, neutral := 100 },
    ollamaClient := false,
    insightStage := fun _ _ => Except.ok none,
    cosF := fun _ => 0, sinF := fun _ => 0,
    spacyVersion := "3.7", ollamaModel := "llama" }

/-- C1 witness: injecting a keyness fault in a concrete environment
yields a FAILED result carrying the message, with the statistics payload
kept and the later payloads absent. -/
theorem C1_witness :
    (analyze envFailKeyness "txt" "id1" none).status = AnalysisStatus.failed ∧
    (analyze envFailKeyness "txt" "id1" none).error_message = some "boom" ∧
    (analyze envFailKeyness "txt" "id1" none).textStatistics =
      some (calculate_text_statistics "txt" "txt") ∧
    (analyze envFailKeyness "txt" "id1" none).keyness = none ∧
    (analyze envFailKeyness "txt" "id1" none).sentiment = none := by
  have h := (C1_failure_isolation envFailKeyness "txt" "id1" none).2.2.1 "txt"
    (calculate_text_statistics "txt" "txt") "boom" rfl rfl rfl (by decide)
  exact ⟨h.1.1, h.1.2.1, h.2.2.1, h.2.2.2.1, h.2.2.2.2.2⟩

/-- C2: when every hard stage succeeds and the insight stage is faulted
(client unavailable, no insight returned, or an exception raised), the
result is COMPLETED with `aiInsights` absent; moreover the insight
adapter itself returns an absent value whenever the client is absent or
the external generate call raises, never propagating the exception. -/
theorem C2_insight_soft_degradation (env : PipelineEnv)
    (text analysis_id : String) (parameters : Option (List (String × String)))
    (ct : String) (st : TextStatistics) (kd : List KeyEntry)
    (cd : List RawCluster) (sd : SentimentData)
    (hcl : env.clean_text text = Except.ok ct)
    (hst : env.statsStage text ct = Except.ok st)
    (hky : env.keynessStage ct = Except.ok kd)
    (hcs : env.clusteringStage ct = Except.ok cd)
    (hsent : env.sentimentStage ct = Except.ok sd)
    (hsoft : env.ollamaClient = false ∨
      env.insightStage ct cd = Except.ok none ∨
      ∃ err, env.insightStage ct cd = Except.error err) :
    (analyze env text analysis_id parameters).status = AnalysisStatus.completed ∧
    (analyze env text analysis_id parameters).aiInsights = none ∧
    (∀ generate : String → Except String String, ∀ model t : String,
      ∀ cl : List RawCluster, analyze_themes none generate model t cl = none) ∧
    (∀ generate : String → Except String String, ∀ model t : String,
      ∀ cl : List RawCluster, ∀ err : String,
      generate (buildPrompt t cl) = Except.error err →
      analyze_themes (some ()) generate model t cl = none) := by
  have hai : (if env.ollamaClient then
      match env.insightStage ct cd with
      | Except.ok (some ins) => some ins
      | Except.ok none => none
      | Except.error _ => none
    else none) = none := by
    rcases hsoft with hc | hc | ⟨err, hc⟩
    · simp [hc]
    · simp [hc]
    · simp [hc]
  refine ⟨?_, ?_, ?_, ?_⟩
  · simp only [analyze, hcl, hst, hky, hcs, hsent, hai]
  · simp only [analyze, hcl, hst, hky, hcs, hsent, hai]
  · intro generate model t cl
    rfl
  · intro generate model t cl err hgen
    simp only [analyze_themes, hgen]

/-- A concrete pipeline environment where all hard stages succeed but the
insight stage raises. -/
def envSoftFail : PipelineEnv :=
  { startTimestamp := "2026-01-01T00:00:00", endTimestamp := "2026-01-01T00:00:01",
    elapsed := 1, keynessMs := 1, clusteringMs := 1, sentimentMs := 1,
    clean_text := fun t => Except.ok t,
    statsStage := fun o c => Except.ok (calculate_text_statistics o c),
    keynessStage := fun _ => Except.ok [],
    clusteringStage := fun _ => Except.ok [],
    sentimentStage := fun _ =>
      Except.ok { overall := 0, positive := 0, negative := 0, neutral := 100 },
    ollamaClient := true,
    insightStage := fun _ _ => Except.error "connection refused",
    cosF := fun _ => 0, sinF := fun _ => 0,
    spacyVersion := "3.7", ollamaModel := "llama" }

/-- C2 witness: a faulted insight stage in a concrete otherwise-successful
run leaves the result COMPLETED with `aiInsights` absent. -/
theorem C2_witness :
    (analyze envSoftFail "txt" "id2" none).status = AnalysisStatus.completed ∧
    (analyze envSoftFail "txt" "id2" none).aiInsights = none := by
  have h := C2_insight_soft_degradation envSoftFail "txt" "id2" none "txt"
    (calculate_text_statistics "txt" "txt") [] []
    { overall := 0, positive := 0, negative := 0, neutral := 100 }
    rfl rfl rfl rfl rfl (Or.inr (Or.inr ⟨"connection refused", rfl⟩))
  exact ⟨h.1, h.2.1⟩
